import Mathlib

/-!
Verification of the Web_Crawler repository: a shallow embedding of the
crawler's pure logic (rating enumeration, content hashing, HTML
sanitization, pagination arithmetic, circuit breaker, retry wrapper,
rate limiter, crawl-resumption logic, book-detail route, change
detection) together with theorems settling the specification claims.
-/

namespace Crawler

/-! ## Rating (src/crawler/models.py) -/

/-- The five-valued rating enumeration `Rating(str, Enum)`. -/
inductive Rating where
  | ONE
  | TWO
  | THREE
  | FOUR
  | FIVE
deriving DecidableEq, Repr

/-- The enum member's textual value (`Rating.ONE.value == "One"` etc.). -/
def Rating.value : Rating → String
  | .ONE => "One"
  | .TWO => "Two"
  | .THREE => "Three"
  | .FOUR => "Four"
  | .FIVE => "Five"

/-- Leading-segment test on character lists (helper for substring search). -/
def charsMatchHead : List Char → List Char → Bool
  | [], _ => true
  | _ :: _, [] => false
  | a :: as, b :: bs => a == b && charsMatchHead as bs

/-- Substring occurrence test on character lists. -/
def charsHasSegment (needle : List Char) : List Char → Bool
  | [] => charsMatchHead needle []
  | c :: cs => charsMatchHead needle (c :: cs) || charsHasSegment needle cs

/-- Python's `needle in hay` substring containment for strings. -/
def strContains (hay needle : String) : Bool :=
  charsHasSegment needle.data hay.data

/-- The declaration-order scan of `for rating in cls` in `from_star_class`. -/
def ratingScan (star_class : String) : List Rating → Rating
  | [] => Rating.ONE
  | r :: rs => if strContains star_class r.value then r else ratingScan star_class rs

/-- Enum members in declaration order, as iterated by `for rating in cls`. -/
def ratingMembers : List Rating :=
  [Rating.ONE, Rating.TWO, Rating.THREE, Rating.FOUR, Rating.FIVE]

/-- `Rating.from_star_class`: first member whose value occurs in the CSS
class string, defaulting to `ONE` when none matches. -/
def Rating.from_star_class (star_class : String) : Rating :=
  ratingScan star_class ratingMembers

/-- `Rating.to_int`: integer projection One→1 … Five→5. -/
def Rating.to_int : Rating → Nat
  | .ONE => 1
  | .TWO => 2
  | .THREE => 3
  | .FOUR => 4
  | .FIVE => 5

/-! ## Validators (src/utils/validators.py) -/

/-- `sanitize_html(html, max_length)`: empty input yields empty output;
over-limit input is cut to the first `max_length` characters with the
literal suffix `"... [truncated]"` appended; otherwise unchanged. -/
def sanitize_html (html : String) (max_length : Nat) : String :=
  if html = "" then ""
  else if html.length > max_length then
    String.mk (html.data.take max_length) ++ "... [truncated]"
  else html

/-! ## Pagination (src/api/schemas/books.py) -/

/-- The `PaginatedResponse` envelope `{items, total, page, pages, limit}`. -/
structure Paginated (α : Type) where
  items : List α
  total : Nat
  page : Nat
  pages : Nat
  limit : Nat
deriving DecidableEq, Repr

/-- `PaginatedResponse.create`: `pages = (total + limit - 1) // limit` when
`total > 0`, else `1`; items/total/page/limit pass through. -/
def PaginatedResponse.create {α : Type} (items : List α) (total page limit : Nat) :
    Paginated α :=
  { items := items
    total := total
    page := page
    pages := if total > 0 then (total + limit - 1) / limit else 1
    limit := limit }

/-! ## Book domain model (src/crawler/models.py) and content hashing
(src/utils/hashing.py).  Float prices are embedded as rationals; the
SHA-256 digest (third-party `hashlib`) is an abstract parameter, since the
claims about hashing only concern which serialized payload is digested. -/

/-- The `Book` pydantic model's fields. -/
structure Book where
  name : String
  description : Option String
  category : String
  price_excl_tax : Rat
  price_incl_tax : Rat
  availability : String
  num_reviews : Nat
  image_url : String
  rating : Rating
  source_url : String
  crawl_timestamp : Nat
  status : String
  content_hash : String
  raw_html : Option String
deriving DecidableEq, Repr

/-- The canonical five-field record serialized by `generate_content_hash`:
`json.dumps({name, price_incl_tax, price_excl_tax, availability, rating},
sort_keys=True)`, keys in lexicographic order. -/
def contentHashPayload (b : Book) : String :=
  "\x7b\"availability\": \"" ++ b.availability ++
  "\", \"name\": \"" ++ b.name ++
  "\", \"price_excl_tax\": " ++ toString b.price_excl_tax ++
  ", \"price_incl_tax\": " ++ toString b.price_incl_tax ++
  ", \"rating\": \"" ++ b.rating.value ++ "\"\x7d"

/-- `generate_content_hash(book)`: SHA-256 hex digest of the canonical
payload; `digest` abstracts `hashlib.sha256(...).hexdigest()`. -/
def generate_content_hash (digest : String → String) (b : Book) : String :=
  digest (contentHashPayload b)

/-! ## Crawler state and resumption (src/crawler/state.py,
src/crawler/scraper.py). -/

/-- The `CrawlerState` pydantic model (timestamps as abstract instants). -/
structure CrawlerState where
  last_page : Nat
  last_run : Nat
  status : String
  total_books_crawled : Nat
  error_message : Option String
deriving DecidableEq, Repr

/-- The default `CrawlerState()` (last_page 1, status "idle"). -/
def CrawlerState.initial : CrawlerState :=
  { last_page := 1, last_run := 0, status := "idle",
    total_books_crawled := 0, error_message := none }

/-- `StateManager.get_last_state`: the persisted record, or a fresh
default when none is persisted. -/
def getLastState (persisted : Option CrawlerState) : CrawlerState :=
  match persisted with
  | some st => st
  | none => CrawlerState.initial

/-- The resume/reset step at the head of `crawl_all_books`: returns the
starting page together with the persisted state after this step
(`resume=False` clears it via `StateManager.reset`; `last_page` truthiness
mirrors `if last_state and last_state.last_page`). -/
def crawlStartPage (resume : Bool) (persisted : Option CrawlerState) :
    Nat × Option CrawlerState :=
  if resume then
    let last := getLastState persisted
    (if last.last_page ≠ 0 then max 1 last.last_page else 1, persisted)
  else
    (1, none)

/-! ## HTTP client circuit breaker (src/crawler/client.py) -/

/-- The three circuit-breaker states; `opened` embeds the Python string
state "open" (a Lean keyword). -/
inductive CBState where
  | closed
  | opened
  | halfOpen
deriving DecidableEq, Repr

/-- The mutable breaker fields of `HTTPClient`; monotonic time is a `Nat`
and `circuit_open_until` is `Option` as in the Python `None` initial
value. -/
structure CircuitBreaker where
  circuit_state : CBState
  failure_count : Nat
  circuit_open_until : Option Nat
  half_open_attempts : Nat
deriving DecidableEq, Repr

/-- The breaker configuration drawn from `settings.crawler`. -/
structure CBConfig where
  circuit_failure_threshold : Nat
  circuit_reset_timeout : Nat
  circuit_half_open_max_calls : Nat
deriving DecidableEq, Repr

/-- A fresh breaker: state "closed", no failures, no open-until. -/
def CircuitBreaker.initial : CircuitBreaker :=
  { circuit_state := CBState.closed, failure_count := 0,
    circuit_open_until := none, half_open_attempts := 0 }

/-- `_check_circuit_ready`: returns the updated breaker and the
`HTTPClientError` message when the request is rejected.  The
`t ≠ 0` conjunct mirrors Python's truthiness test
`if self._circuit_open_until and now >= self._circuit_open_until`. -/
def checkCircuitReady (cfg : CBConfig) (now : Nat) (s : CircuitBreaker) :
    CircuitBreaker × Option String :=
  let step : CircuitBreaker ⊕ String :=
    if s.circuit_state = CBState.opened then
      match s.circuit_open_until with
      | some t =>
        if t ≠ 0 ∧ t ≤ now then
          Sum.inl { s with circuit_state := CBState.halfOpen, half_open_attempts := 0 }
        else Sum.inr "Circuit breaker open: throttling outbound requests"
      | none => Sum.inr "Circuit breaker open: throttling outbound requests"
    else Sum.inl s
  match step with
  | Sum.inr msg => (s, some msg)
  | Sum.inl s1 =>
    if s1.circuit_state = CBState.halfOpen then
      if cfg.circuit_half_open_max_calls ≤ s1.half_open_attempts then
        (s1, some "Circuit breaker half-open limit reached")
      else ({ s1 with half_open_attempts := s1.half_open_attempts + 1 }, none)
    else (s1, none)

/-- `_trip_circuit`: open the breaker with open-until = now + reset
timeout (the failure counter is left as is). -/
def tripCircuit (cfg : CBConfig) (now : Nat) (s : CircuitBreaker) : CircuitBreaker :=
  { s with circuit_state := CBState.opened,
           circuit_open_until := some (now + cfg.circuit_reset_timeout),
           half_open_attempts := 0 }

/-- `_record_success`: zero the failure counter, close the breaker, clear
open-until and the half-open counter. -/
def recordSuccess (s : CircuitBreaker) : CircuitBreaker :=
  { s with failure_count := 0, circuit_state := CBState.closed,
           circuit_open_until := none, half_open_attempts := 0 }

/-- `_record_failure`: increment the counter, then trip if half-open or if
the counter reached the threshold. -/
def recordFailure (cfg : CBConfig) (now : Nat) (s : CircuitBreaker) : CircuitBreaker :=
  let s1 := { s with failure_count := s.failure_count + 1 }
  if s1.circuit_state = CBState.halfOpen then tripCircuit cfg now s1
  else if cfg.circuit_failure_threshold ≤ s1.failure_count then tripCircuit cfg now s1
  else s1

/-- The httpx transport-failure families named by the retry predicate. -/
inductive TransportKind where
  | connectError
  | timeoutError
  | networkError
  | protocolError
deriving DecidableEq, Repr

/-- The outcome of the underlying `self._client.get(url)` call. -/
inductive GetOutcome where
  | resp (status : Nat) (body : String)
  | transport (kind : TransportKind) (msg : String)
deriving DecidableEq, Repr

/-- The exception taxonomy visible to the retry wrapper: raw httpx
transport errors, `httpx.HTTPStatusError`, the repository's
`HTTPClientError`, and anything else. -/
inductive Exc where
  | httpxError (kind : TransportKind) (msg : String)
  | httpxStatusError (status : Nat) (body : String)
  | clientError (msg : String)
  | otherError (msg : String)
deriving DecidableEq, Repr

/-- `response.raise_for_status()` succeeds exactly on 2xx. -/
def is2xx (status : Nat) : Bool :=
  200 ≤ status && status < 300

/-- One body execution of `HTTPClient.fetch` (the function the retry
decorator wraps): circuit check, then the GET, converting every non-2xx
status and every transport failure into `HTTPClientError`. -/
def fetchAttempt (cfg : CBConfig) (now : Nat) (go : GetOutcome) (s : CircuitBreaker) :
    CircuitBreaker × Except Exc (Nat × String) :=
  match checkCircuitReady cfg now s with
  | (s1, some msg) => (s1, Except.error (Exc.clientError msg))
  | (s1, none) =>
    match go with
    | GetOutcome.transport _ msg =>
        (recordFailure cfg now s1,
         Except.error (Exc.clientError ("Request failed: " ++ msg)))
    | GetOutcome.resp status body =>
        if is2xx status then (recordSuccess s1, Except.ok (status, body))
        else (recordFailure cfg now s1,
              Except.error (Exc.clientError ("HTTP " ++ toString status ++ ": " ++ body)))

/-! ## Retry wrapper (src/utils/retry.py) -/

/-- tenacity's `retry_if_exception_type((httpx.HTTPError,
httpx.TimeoutException, httpx.ConnectError, httpx.NetworkError))`:
only raw httpx errors (transport or status) are retryable;
`HTTPClientError` and arbitrary exceptions are not. -/
def retryableExc : Exc → Bool
  | Exc.httpxError _ _ => true
  | Exc.httpxStatusError _ _ => true
  | Exc.clientError _ => false
  | Exc.otherError _ => false

/-- The tenacity loop over a pure attempt function `f` (attempt number ↦
outcome): stop after the configured attempts, retry only retryable
errors, re-raise the last error unchanged (`reraise=True`).  Also counts
the attempts that were actually executed. -/
def runRetry {α : Type} (f : Nat → Except Exc α) : Nat → Nat → Except Exc α × Nat
  | _, 0 => (Except.error (Exc.otherError "unreachable"), 0)
  | k, left + 1 =>
    match f k with
    | Except.ok a => (Except.ok a, 1)
    | Except.error e =>
      if retryableExc e ∧ left ≠ 0 then
        let rest := runRetry f (k + 1) left
        (rest.1, rest.2 + 1)
      else (Except.error e, 1)

/-- `retry_on_http_error(max_attempts)` applied to a pure attempt
function. -/
def retry_on_http_error {α : Type} (maxAttempts : Nat) (f : Nat → Except Exc α) :
    Except Exc α × Nat :=
  runRetry f 1 maxAttempts

/-- The stateful tenacity loop around `fetchAttempt`: each re-entry of the
decorated `fetch` sees the breaker state left by the previous attempt.
`times`/`gets` give each attempt's clock reading and GET outcome. -/
def runRetryFetch (cfg : CBConfig) (times : Nat → Nat) (gets : Nat → GetOutcome) :
    Nat → Nat → CircuitBreaker → CircuitBreaker × Except Exc (Nat × String) × Nat
  | _, 0, s => (s, Except.error (Exc.otherError "unreachable"), 0)
  | k, left + 1, s =>
    match fetchAttempt cfg (times k) (gets k) s with
    | (s1, Except.ok r) => (s1, Except.ok r, 1)
    | (s1, Except.error e) =>
      if retryableExc e ∧ left ≠ 0 then
        let rest := runRetryFetch cfg times gets (k + 1) left s1
        (rest.1, rest.2.1, rest.2.2 + 1)
      else (s1, Except.error e, 1)

/-- The decorated `fetch` = `retry_on_http_error()(fetch)` with the given
attempt budget. -/
def fetchDecorated (cfg : CBConfig) (maxAttempts : Nat) (times : Nat → Nat)
    (gets : Nat → GetOutcome) (s : CircuitBreaker) :
    CircuitBreaker × Except Exc (Nat × String) × Nat :=
  runRetryFetch cfg times gets 1 maxAttempts s

/-- Repeated `_check_circuit_ready` calls at a fixed clock reading,
counting admitted (non-rejected) checks. -/
def runChecks (cfg : CBConfig) (now : Nat) : Nat → CircuitBreaker → CircuitBreaker × Nat
  | 0, s => (s, 0)
  | n + 1, s =>
    let r := checkCircuitReady cfg now s
    let rest := runChecks cfg now n r.1
    (rest.1, (if r.2 = none then 1 else 0) + rest.2)

/-! ## Book detail route (src/api/routes/books.py `get_book`) over the
book repository (src/database/repositories/book_repository.py).  The
books collection is a list of (ObjectId string, stored book) documents. -/

/-- Hexadecimal digit test (both cases), as accepted by `bson.ObjectId`. -/
def isHexChar (c : Char) : Bool :=
  c.isDigit || ('a' ≤ c && c ≤ 'f') || ('A' ≤ c && c ≤ 'F')

/-- `bson.ObjectId(s)` accepts exactly 24-character hex strings; anything
else raises `InvalidId`. -/
def isValidObjectId (s : String) : Bool :=
  s.length == 24 && s.data.all isHexChar

/-- `BookRepository.get_book_by_id`: the `ObjectId(book_id)` conversion
runs inside the repository's try block, whose handler logs and re-raises
— so a malformed id is an error, not a `None`. -/
def get_book_by_id (docs : List (String × Book)) (book_id : String) :
    Except String (Option Book) :=
  if isValidObjectId book_id then
    Except.ok ((docs.find? (fun d => d.1 = book_id)).map (fun d => d.2))
  else Except.error "InvalidId"

/-- `BookRepository.get_book_by_url`: exact `source_url` match. -/
def get_book_by_url (docs : List (String × Book)) (url : String) : Option Book :=
  (docs.find? (fun d => d.2.source_url = url)).map (fun d => d.2)

/-- The `BookDetailResponse` schema (BookResponse plus raw_html). -/
structure BookDetailResponse where
  id : String
  name : String
  description : Option String
  category : String
  price_excl_tax : Rat
  price_incl_tax : Rat
  availability : String
  num_reviews : Nat
  image_url : String
  rating : Rating
  source_url : String
  crawl_timestamp : Nat
  raw_html : Option String
deriving DecidableEq, Repr

/-- The response constructed by the route body: the `id` field receives
the function's `book_id` argument (the caller-supplied path value). -/
def toDetailResponse (book_id : String) (b : Book) : BookDetailResponse :=
  { id := book_id, name := b.name, description := b.description,
    category := b.category, price_excl_tax := b.price_excl_tax,
    price_incl_tax := b.price_incl_tax, availability := b.availability,
    num_reviews := b.num_reviews, image_url := b.image_url,
    rating := b.rating, source_url := b.source_url,
    crawl_timestamp := b.crawl_timestamp, raw_html := b.raw_html }

/-- HTTP outcome of `GET /books/{id}`: 200, the route's explicit 404, or
a propagated exception (turned into a 500 by the app's catch-all
handler). -/
inductive RouteResult where
  | ok (resp : BookDetailResponse)
  | notFound (detail : String)
  | serverError (msg : String)
deriving DecidableEq, Repr

/-- The `get_book` route: id lookup first (errors propagate — the route
has no try/except), `source_url` fallback only when the id lookup found
nothing, 404 when neither resolves. -/
def get_book_route (docs : List (String × Book)) (book_id : String) : RouteResult :=
  match get_book_by_id docs book_id with
  | Except.error msg => RouteResult.serverError msg
  | Except.ok found =>
    let book := match found with
                | some b => some b
                | none => get_book_by_url docs book_id
    match book with
    | none => RouteResult.notFound ("Book not found: " ++ book_id)
    | some b => RouteResult.ok (toDetailResponse book_id b)

/-! ## Change detector (src/scheduler/change_detector.py
`_process_single_book`) over the books collection. -/

/-- A failed-crawl diagnostic record (`record_failed_crawl`). -/
structure FailedDoc where
  source_url : String
  raw_html : Option String
  error : String
  stage : String
deriving DecidableEq, Repr

/-- Database state: the books collection plus the failed-crawls
collection; `nextId` generates fresh ObjectIds for inserts. -/
structure BooksDB where
  docs : List (String × Book)
  failed : List FailedDoc
  nextId : Nat
deriving DecidableEq, Repr

/-- `find_one({"source_url": url})` on the books collection. -/
def findDoc (docs : List (String × Book)) (url : String) : Option (String × Book) :=
  docs.find? (fun d => d.2.source_url = url)

/-- The `$set` payload of `upsert_book`: every Book field is written
except that `raw_html` is included only when truthy, so a falsy new
`raw_html` leaves the stored snapshot in place. -/
def applyUpsert (old b : Book) : Book :=
  { b with raw_html := match b.raw_html with
                       | some h => if h = "" then old.raw_html else some h
                       | none => old.raw_html }

/-- Replace the (first) document whose `source_url` matches. -/
def replaceDoc : List (String × Book) → String → Book → List (String × Book)
  | [], _, _ => []
  | d :: rest, url, nb =>
    if d.2.source_url = url then (d.1, nb) :: rest
    else d :: replaceDoc rest url nb

/-- `BookRepository.upsert_book`: update the existing document keyed on
`source_url`, or insert a fresh one; returns the document id. -/
def upsert_book (db : BooksDB) (b : Book) : BooksDB × String :=
  match findDoc db.docs b.source_url with
  | some (i, old) =>
    ({ db with docs := replaceDoc db.docs b.source_url (applyUpsert old b) }, i)
  | none =>
    let i := "oid" ++ toString db.nextId
    ({ db with docs := db.docs ++ [(i, b)], nextId := db.nextId + 1 }, i)

/-- `record_failed_crawl`: upsert a FailedDoc keyed on `source_url`. -/
def recordFailedCrawl (db : BooksDB) (url : String) (html : Option String)
    (err stage : String) : BooksDB :=
  let doc : FailedDoc := { source_url := url, raw_html := html, error := err, stage := stage }
  if (db.failed.find? (fun f => f.source_url = url)).isSome then
    { db with failed := db.failed.map (fun f => if f.source_url = url then doc else f) }
  else
    { db with failed := db.failed ++ [doc] }

/-- One emitted change record (the percent-change annotation carried by
price changes is payload only and not modelled). -/
structure Change where
  type : String
  field : String
  oldValue : String
  newValue : String
deriving DecidableEq, Repr

/-- Empty-string substitution for optional description values. -/
def optStr : Option String → String
  | some s => s
  | none => ""

/-- The pure comparison of `compare_and_log_changes`: the five field
checks in source order (price incl, price excl, availability,
description with empty substitution, rating string value). -/
def compareChanges (old_book new_book : Book) : List Change :=
  (if old_book.price_incl_tax ≠ new_book.price_incl_tax then
    [{ type := "price_change", field := "price_incl_tax",
       oldValue := toString old_book.price_incl_tax,
       newValue := toString new_book.price_incl_tax }] else []) ++
  (if old_book.price_excl_tax ≠ new_book.price_excl_tax then
    [{ type := "price_change", field := "price_excl_tax",
       oldValue := toString old_book.price_excl_tax,
       newValue := toString new_book.price_excl_tax }] else []) ++
  (if old_book.availability ≠ new_book.availability then
    [{ type := "availability_change", field := "availability",
       oldValue := old_book.availability, newValue := new_book.availability }] else []) ++
  (if optStr old_book.description ≠ optStr new_book.description then
    [{ type := "description_change", field := "description",
       oldValue := optStr old_book.description,
       newValue := optStr new_book.description }] else []) ++
  (if old_book.rating.value ≠ new_book.rating.value then
    [{ type := "rating_change", field := "rating",
       oldValue := old_book.rating.value, newValue := new_book.rating.value }] else [])

/-- The per-URL statistics of `_process_single_book` (the per-type
tallies are sums over the emitted change list). -/
structure DetectStats where
  new_books : Nat
  changed_books : Nat
  unchanged_books : Nat
  errors : Nat
deriving DecidableEq, Repr

/-- The fetch+parse phase's outcome for one URL, as seen by
`_process_single_book`'s exception handlers. -/
inductive CrawlOutcome where
  | ok (b : Book)
  | crawlError (msg : String)
  | unexpectedError (msg : String)
deriving DecidableEq, Repr

/-- `_process_single_book` after the fetch/parse phase: failures record a
failed-crawl diagnostic; a parsed book is inserted when new, skipped when
the stored content hash matches or the field comparison is empty, and
upserted only when the hash differs and at least one change was
emitted. -/
def process_single_book (db : BooksDB) (url : String) (outcome : CrawlOutcome) :
    BooksDB × DetectStats :=
  match outcome with
  | CrawlOutcome.crawlError msg =>
    (recordFailedCrawl db url none msg "change_detection",
     { new_books := 0, changed_books := 0, unchanged_books := 0, errors := 1 })
  | CrawlOutcome.unexpectedError msg =>
    (recordFailedCrawl db url none msg "change_detection",
     { new_books := 0, changed_books := 0, unchanged_books := 0, errors := 1 })
  | CrawlOutcome.ok book =>
    match findDoc db.docs book.source_url with
    | none =>
      ((upsert_book db book).1,
       { new_books := 1, changed_books := 0, unchanged_books := 0, errors := 0 })
    | some (_, old) =>
      if old.content_hash = book.content_hash then
        (db, { new_books := 0, changed_books := 0, unchanged_books := 1, errors := 0 })
      else if compareChanges old book = [] then
        (db, { new_books := 0, changed_books := 0, unchanged_books := 1, errors := 0 })
      else
        ((upsert_book db book).1,
         { new_books := 0, changed_books := 1, unchanged_books := 0, errors := 0 })

/-! ## Rate limiting middleware (src/api/middleware.py) -/

/-- The per-key timestamp table `self.requests` (a `defaultdict(list)`);
timestamps are `time.time()` seconds embedded as integers.  A missing key
reads as the empty list, as in `defaultdict`. -/
def lookupTimes : List (String × List Int) → String → List Int
  | [], _ => []
  | p :: rest, k => if p.1 = k then p.2 else lookupTimes rest k

/-- Store a key's timestamp list (`self.requests[api_key] = ...`). -/
def setTimes : List (String × List Int) → String → List Int → List (String × List Int)
  | [], k, ts => [(k, ts)]
  | p :: rest, k, ts => if p.1 = k then (k, ts) :: rest else p :: setTimes rest k ts

/-- `_check_rate_limit`: keep timestamps strictly newer than one hour ago,
reject when the remaining count is at or above the limit, otherwise append
the current timestamp.  Returns the stored list and the admission flag. -/
def check_rate_limit (limit : Nat) (now : Int) (times : List Int) : List Int × Bool :=
  let pruned := times.filter (fun t => now - 3600 < t)
  if limit ≤ pruned.length then (pruned, false)
  else (pruned ++ [now], true)

/-- Outcome of one middleware dispatch: the downstream handler ran, or a
429 was raised with its `Retry-After` header value. -/
inductive RLOutcome where
  | passed
  | rejected (status : Nat) (retryAfter : String)
deriving DecidableEq, Repr

/-- Whether the downstream handler ran. -/
def RLOutcome.isPassed : RLOutcome → Bool
  | RLOutcome.passed => true
  | RLOutcome.rejected _ _ => false

/-- `RateLimitMiddleware.dispatch` for one request: `if api_key:` means a
missing header (`none`) and an empty header value (`""`) both bypass the
limiter; other keys are checked, a rejection raising 429 "Rate limit
exceeded" with `Retry-After: 3600` before `call_next` runs. -/
def rlDispatch (limit : Nat) (table : List (String × List Int)) (now : Int)
    (apiKey : Option String) : List (String × List Int) × RLOutcome :=
  match apiKey with
  | none => (table, RLOutcome.passed)
  | some k =>
    if k = "" then (table, RLOutcome.passed)
    else
      let res := check_rate_limit limit now (lookupTimes table k)
      if res.2 then (setTimes table k res.1, RLOutcome.passed)
      else (setTimes table k res.1, RLOutcome.rejected 429 "3600")

/-- Process a request trace (timestamp, optional header value); the log
pairs each request with whether the downstream handler ran. -/
def rlRun (limit : Nat) :
    List (String × List Int) → List (Int × Option String) →
      List (String × List Int) × List ((Int × Option String) × Bool)
  | table, [] => (table, [])
  | table, r :: rs =>
    let res := rlDispatch limit table r.1 r.2
    let rest := rlRun limit res.1 rs
    (rest.1, (r, res.2.isPassed) :: rest.2)

/-- Number of handler-admitted requests for key `k` with timestamp in the
trailing window `(T - 3600, T]`. -/
def windowCount (k : String) (T : Int) : List ((Int × Option String) × Bool) → Nat
  | [] => 0
  | e :: rest =>
    (if e.1.2 = some k ∧ e.2 = true ∧ T - 3600 < e.1.1 ∧ e.1.1 ≤ T then 1 else 0) +
    windowCount k T rest

/-- Number of stored timestamps in the window `(T - 3600, T]`. -/
def windowTimes (T : Int) : List Int → Nat
  | [] => 0
  | t :: rest => (if T - 3600 < t ∧ t ≤ T then 1 else 0) + windowTimes T rest

end Crawler

namespace Crawler

/-! ## Theorems for claims C7, C8, C9, C5, C4 -/

/-- Claim C7: for each of the five ratings, `from_star_class` applied to
`"star-rating " ++ name` returns the original rating; `to_int` maps
One..Five to 1..5; and every string containing none of the five rating
names yields `ONE`. -/
theorem C7_rating_classification (s : String)
    (hnone : ∀ r : Rating, strContains s r.value = false) :
    (∀ r : Rating, Rating.from_star_class ("star-rating " ++ r.value) = r) ∧
    (Rating.ONE.to_int = 1 ∧ Rating.TWO.to_int = 2 ∧ Rating.THREE.to_int = 3 ∧
      Rating.FOUR.to_int = 4 ∧ Rating.FIVE.to_int = 5) ∧
    Rating.from_star_class s = Rating.ONE := by
  refine ⟨?_, by decide, ?_⟩
  · intro r
    cases r <;> decide
  · simp [Rating.from_star_class, ratingMembers, ratingScan,
      hnone Rating.ONE, hnone Rating.TWO, hnone Rating.THREE,
      hnone Rating.FOUR, hnone Rating.FIVE]

/-- Witness for C7 at the concrete string "star-rating zero", which
contains none of the five rating names. -/
theorem C7_rating_classification_witness :
    (∀ r : Rating, Rating.from_star_class ("star-rating " ++ r.value) = r) ∧
    (Rating.ONE.to_int = 1 ∧ Rating.TWO.to_int = 2 ∧ Rating.THREE.to_int = 3 ∧
      Rating.FOUR.to_int = 4 ∧ Rating.FIVE.to_int = 5) ∧
    Rating.from_star_class "star-rating zero" = Rating.ONE :=
  C7_rating_classification "star-rating zero" (by intro r; cases r <;> decide)

/-- `(total + limit - 1) / limit` is the rational ceiling of
`total / limit` for positive arguments. -/
theorem pagesEqCeil (total limit : Nat) (ht : 0 < total) (hl : 0 < limit) :
    (total + limit - 1) / limit = ⌈(total : ℚ) / (limit : ℚ)⌉₊ := by
  rw [← Nat.ceilDiv_eq_add_pred_div]
  have hlq : (0 : ℚ) < (limit : ℚ) := by exact_mod_cast hl
  apply le_antisymm
  · rw [ceilDiv_le_iff_le_mul hl, mul_comm]
    have h1 : (total : ℚ) / limit ≤ (⌈(total : ℚ) / limit⌉₊ : ℚ) := Nat.le_ceil _
    have h2 : (total : ℚ) ≤ (⌈(total : ℚ) / limit⌉₊ : ℚ) * limit := (div_le_iff hlq).mp h1
    exact_mod_cast h2
  · rw [Nat.ceil_le]
    have h5 : total ≤ limit * (total ⌈/⌉ limit) := by
      simpa [smul_eq_mul] using le_smul_ceilDiv (b := total) hl
    have h6 : total ≤ (total ⌈/⌉ limit) * limit := by rwa [mul_comm] at h5
    have h7 : (total : ℚ) ≤ ((total ⌈/⌉ limit : Nat) : ℚ) * limit := by exact_mod_cast h6
    exact (div_le_iff hlq).mpr h7

/-- Claim C8: `PaginatedResponse.create` sets `pages = ceil(total/limit)`
when `total > 0` and `pages = 1` when `total = 0`, passing items, total,
page and limit through unchanged. -/
theorem C8_pagination_create {α : Type} (items : List α) (total page limit : Nat)
    (hl : 0 < limit) :
    (0 < total → (PaginatedResponse.create items total page limit).pages
        = ⌈(total : ℚ) / (limit : ℚ)⌉₊) ∧
    (total = 0 → (PaginatedResponse.create items total page limit).pages = 1) ∧
    (PaginatedResponse.create items total page limit).items = items ∧
    (PaginatedResponse.create items total page limit).total = total ∧
    (PaginatedResponse.create items total page limit).page = page ∧
    (PaginatedResponse.create items total page limit).limit = limit := by
  refine ⟨?_, ?_, rfl, rfl, rfl, rfl⟩
  · intro ht
    simp only [PaginatedResponse.create, ht, if_pos]
    exact pagesEqCeil total limit ht hl
  · intro h0
    simp [PaginatedResponse.create, h0]

/-- Witness for C8: total=25, limit=10 yields pages=3; total=0 yields
pages=1. -/
theorem C8_pagination_create_witness :
    ((PaginatedResponse.create ([()] : List Unit) 25 1 10).pages
        = ⌈(25 : ℚ) / (10 : ℚ)⌉₊) ∧
    (PaginatedResponse.create ([()] : List Unit) 25 1 10).pages = 3 ∧
    (PaginatedResponse.create ([] : List Unit) 0 1 10).pages = 1 :=
  ⟨(C8_pagination_create [()] 25 1 10 (by decide)).1 (by decide),
   by decide,
   (C8_pagination_create ([] : List Unit) 0 1 10 (by decide)).2.1 rfl⟩

/-- Claim C9: `sanitize_html` returns "" on empty input, passes strings at
or under the limit through unchanged, and truncates longer strings to the
first `max_length` characters plus the literal suffix "... [truncated]". -/
theorem C9_sanitize_html (shortHtml longHtml : String) (max_length : Nat)
    (hs : shortHtml.length ≤ max_length) (hl : max_length < longHtml.length) :
    sanitize_html "" max_length = "" ∧
    sanitize_html shortHtml max_length = shortHtml ∧
    (sanitize_html longHtml max_length).data
      = longHtml.data.take max_length ++ ("... [truncated]").data := by
  refine ⟨by simp [sanitize_html], ?_, ?_⟩
  · unfold sanitize_html
    split_ifs with h1 h2
    · exact h1.symm
    · exact absurd h2 (Nat.not_lt.mpr hs)
    · rfl
  · have hne : longHtml ≠ "" := by
      intro h
      rw [h] at hl
      simp [String.length] at hl
    unfold sanitize_html
    rw [if_neg hne, if_pos hl]
    rfl

/-- Witness for C9 at concrete strings, one under and one over the limit. -/
theorem C9_sanitize_html_witness :
    sanitize_html "" 5 = "" ∧
    sanitize_html "abc" 5 = "abc" ∧
    (sanitize_html "abcdefgh" 5).data
      = ("abcdefgh").data.take 5 ++ ("... [truncated]").data :=
  C9_sanitize_html "abc" "abcdefgh" 5 (by decide) (by decide)

/-- Claim C5: books agreeing on name, price_incl_tax, price_excl_tax,
availability and the rating's string value receive the identical digest,
regardless of every other field; hashing the same book twice is
deterministic. -/
theorem C5_content_hash (digest : String → String) (b1 b2 : Book)
    (hn : b1.name = b2.name)
    (hpi : b1.price_incl_tax = b2.price_incl_tax)
    (hpe : b1.price_excl_tax = b2.price_excl_tax)
    (ha : b1.availability = b2.availability)
    (hr : b1.rating.value = b2.rating.value) :
    generate_content_hash digest b1 = generate_content_hash digest b2 ∧
    generate_content_hash digest b1 = generate_content_hash digest b1 := by
  constructor
  · unfold generate_content_hash contentHashPayload
    rw [hn, hpi, hpe, ha, hr]
  · rfl

/-- Witness for C5: two concrete books differing in description, image
URL, review count, timestamps, status, raw_html and content_hash field,
but agreeing on the five hashed fields, digest identically. -/
theorem C5_content_hash_witness :
    generate_content_hash (fun s => s)
      { name := "A Light in the Attic", description := some "a poem book",
        category := "Poetry", price_excl_tax := 51, price_incl_tax := 52,
        availability := "In stock (22 available)", num_reviews := 0,
        image_url := "https://example.com/a.jpg", rating := Rating.THREE,
        source_url := "https://example.com/c/b1.html", crawl_timestamp := 10,
        status := "active", content_hash := "h1", raw_html := some "<html1>" }
    = generate_content_hash (fun s => s)
      { name := "A Light in the Attic", description := none,
        category := "Poetry", price_excl_tax := 51, price_incl_tax := 52,
        availability := "In stock (22 available)", num_reviews := 5,
        image_url := "https://example.com/other.jpg", rating := Rating.THREE,
        source_url := "https://example.com/c/b1.html", crawl_timestamp := 99,
        status := "inactive", content_hash := "h2", raw_html := none } :=
  (C5_content_hash (fun s => s) _ _ rfl rfl rfl rfl rfl).1

/-- Claim C4: with `resume=True` and a persisted state at page N with
status "running", the crawl starts at `max(1, N)` and the state is kept;
with `resume=False` the persisted state is cleared and the crawl starts at
page 1. -/
theorem C4_resume_logic (st : CrawlerState)
    (hst : st.status = "running") (hp : 1 ≤ st.last_page) :
    crawlStartPage true (some st) = (max 1 st.last_page, some st) ∧
    crawlStartPage false (some st) = (1, none) := by
  constructor
  · have hnz : st.last_page ≠ 0 := by omega
    simp [crawlStartPage, getLastState, hnz]
  · rfl

/-- In half-open state, repeated circuit checks admit at most
`cap - half_open_attempts` further trials (the state remains half-open
across checks). -/
theorem runChecks_halfOpen_bound (cfg : CBConfig) (now : Nat) :
    ∀ (n : Nat) (s : CircuitBreaker), s.circuit_state = CBState.halfOpen →
      (runChecks cfg now n s).2 ≤
        cfg.circuit_half_open_max_calls - s.half_open_attempts := by
  intro n
  induction n with
  | zero =>
    intro s hs
    simp [runChecks]
  | succ m ih =>
    intro s hs
    have hne : ¬ s.circuit_state = CBState.opened := by rw [hs]; nofun
    by_cases hcap : cfg.circuit_half_open_max_calls ≤ s.half_open_attempts
    · have hstep : checkCircuitReady cfg now s =
          (s, some "Circuit breaker half-open limit reached") := by
        simp [checkCircuitReady, hne, hs, hcap]
      have := ih s hs
      simp only [runChecks, hstep]
      simpa using this
    · have hstep : checkCircuitReady cfg now s =
          ({ s with half_open_attempts := s.half_open_attempts + 1 }, none) := by
        simp [checkCircuitReady, hne, hs, hcap]
      have hs1 : ({ s with half_open_attempts := s.half_open_attempts + 1 }
          : CircuitBreaker).circuit_state = CBState.halfOpen := hs
      have hrest := ih _ hs1
      simp only [runChecks, hstep]
      simp at hrest ⊢
      omega

/-- Claim C1: the circuit breaker's three-state machine.  Conjuncts, in
order: (closed) every check admits; every failure increments the counter;
below the threshold the breaker stays closed; reaching the threshold trips
it to open with open-until = now + reset timeout; (open) before open-until
every fetch is rejected with `HTTPClientError` without attempting the GET;
the first check at/after open-until moves to half-open, resets the trial
counter to 0 and admits that check as the first trial; (half-open) a check
at/over the cap is rejected without attempting the GET; at most
`cap - attempts` further trials are ever admitted; a failure re-trips to
open; a successful fetch resets the breaker fully to closed with the
counter zeroed and open-until cleared. -/
theorem C1_circuit_breaker (cfg : CBConfig) (now now2 t t2 : Nat)
    (sClosed sTrip sOpen sOpen2 sHalf sHalfFull : CircuitBreaker)
    (hcap : 0 < cfg.circuit_half_open_max_calls)
    (hC : sClosed.circuit_state = CBState.closed)
    (hCn : sClosed.failure_count + 1 < cfg.circuit_failure_threshold)
    (hT : sTrip.circuit_state = CBState.closed)
    (hTth : cfg.circuit_failure_threshold ≤ sTrip.failure_count + 1)
    (hO : sOpen.circuit_state = CBState.opened)
    (hOu : sOpen.circuit_open_until = some t)
    (hOlt : now < t)
    (hO2 : sOpen2.circuit_state = CBState.opened)
    (hO2u : sOpen2.circuit_open_until = some t2)
    (hO2pos : 0 < t2)
    (hO2le : t2 ≤ now2)
    (hH : sHalf.circuit_state = CBState.halfOpen)
    (hHlt : sHalf.half_open_attempts < cfg.circuit_half_open_max_calls)
    (hF : sHalfFull.circuit_state = CBState.halfOpen)
    (hFge : cfg.circuit_half_open_max_calls ≤ sHalfFull.half_open_attempts) :
    (checkCircuitReady cfg now sClosed = (sClosed, none)) ∧
    ((recordFailure cfg now sClosed).failure_count = sClosed.failure_count + 1) ∧
    (recordFailure cfg now sClosed =
      { sClosed with failure_count := sClosed.failure_count + 1 }) ∧
    (recordFailure cfg now sTrip =
      { sTrip with failure_count := sTrip.failure_count + 1,
                   circuit_state := CBState.opened,
                   circuit_open_until := some (now + cfg.circuit_reset_timeout),
                   half_open_attempts := 0 }) ∧
    (∀ go : GetOutcome, fetchAttempt cfg now go sOpen =
      (sOpen, Except.error
        (Exc.clientError "Circuit breaker open: throttling outbound requests"))) ∧
    (checkCircuitReady cfg now2 sOpen2 =
      ({ sOpen2 with circuit_state := CBState.halfOpen, half_open_attempts := 1 },
       none)) ∧
    (∀ go : GetOutcome, fetchAttempt cfg now go sHalfFull =
      (sHalfFull, Except.error
        (Exc.clientError "Circuit breaker half-open limit reached"))) ∧
    (∀ n : Nat, (runChecks cfg now n sHalf).2 ≤
      cfg.circuit_half_open_max_calls - sHalf.half_open_attempts) ∧
    (recordFailure cfg now sHalf =
      { sHalf with failure_count := sHalf.failure_count + 1,
                   circuit_state := CBState.opened,
                   circuit_open_until := some (now + cfg.circuit_reset_timeout),
                   half_open_attempts := 0 }) ∧
    (∀ body : String, fetchAttempt cfg now (GetOutcome.resp 200 body) sHalf =
      (CircuitBreaker.initial, Except.ok (200, body))) ∧
    (∀ s : CircuitBreaker, recordSuccess s = CircuitBreaker.initial) := by
  have hCne : ¬ sClosed.circuit_state = CBState.opened := by rw [hC]; nofun
  have hCnh : ¬ sClosed.circuit_state = CBState.halfOpen := by rw [hC]; nofun
  have hHne : ¬ sHalf.circuit_state = CBState.opened := by rw [hH]; nofun
  have hFne : ¬ sHalfFull.circuit_state = CBState.opened := by rw [hF]; nofun
  refine ⟨?_, ?_, ?_, ?_, ?_, ?_, ?_, ?_, ?_, ?_, ?_⟩
  · simp [checkCircuitReady, hCne, hCnh]
  · simp only [recordFailure, tripCircuit, hCnh, if_false]
    split_ifs <;> rfl
  · have : ¬ cfg.circuit_failure_threshold ≤ sClosed.failure_count + 1 := by omega
    simp [recordFailure, tripCircuit, hCnh, this]
  · have hTnh : ¬ sTrip.circuit_state = CBState.halfOpen := by rw [hT]; nofun
    simp [recordFailure, tripCircuit, hTnh, hTth]
  · intro go
    have hcond : ¬ (t ≠ 0 ∧ t ≤ now) := by omega
    simp [fetchAttempt, checkCircuitReady, hO, hOu, hcond]
  · have hcond : t2 ≠ 0 ∧ t2 ≤ now2 := ⟨by omega, hO2le⟩
    have hstep : ¬ cfg.circuit_half_open_max_calls ≤ 0 := by omega
    simp [checkCircuitReady, hO2, hO2u, hcond, hstep]
  · intro go
    simp [fetchAttempt, checkCircuitReady, hFne, hF, hFge]
  · intro n
    exact runChecks_halfOpen_bound cfg now n sHalf hH
  · simp [recordFailure, tripCircuit, hH]
  · intro body
    have : ¬ cfg.circuit_half_open_max_calls ≤ sHalf.half_open_attempts := by omega
    simp [fetchAttempt, checkCircuitReady, hHne, hH, this, is2xx,
      recordSuccess, CircuitBreaker.initial]
  · intro s
    rfl

/-- Witness for C1 with the default configuration (threshold 5, reset
60 s, half-open cap 2) at concrete breaker states. -/
theorem C1_circuit_breaker_witness :
    (checkCircuitReady ⟨5, 60, 2⟩ 100 ⟨CBState.closed, 0, none, 0⟩
      = (⟨CBState.closed, 0, none, 0⟩, none)) ∧
    ((recordFailure ⟨5, 60, 2⟩ 100 ⟨CBState.closed, 0, none, 0⟩).failure_count = 0 + 1) ∧
    (recordFailure ⟨5, 60, 2⟩ 100 ⟨CBState.closed, 0, none, 0⟩
      = ⟨CBState.closed, 1, none, 0⟩) ∧
    (recordFailure ⟨5, 60, 2⟩ 100 ⟨CBState.closed, 4, none, 0⟩
      = ⟨CBState.opened, 5, some 160, 0⟩) ∧
    (∀ go : GetOutcome, fetchAttempt ⟨5, 60, 2⟩ 100 go ⟨CBState.opened, 5, some 160, 0⟩
      = (⟨CBState.opened, 5, some 160, 0⟩, Except.error
          (Exc.clientError "Circuit breaker open: throttling outbound requests"))) ∧
    (checkCircuitReady ⟨5, 60, 2⟩ 160 ⟨CBState.opened, 5, some 160, 0⟩
      = (⟨CBState.halfOpen, 5, some 160, 1⟩, none)) ∧
    (∀ go : GetOutcome, fetchAttempt ⟨5, 60, 2⟩ 100 go ⟨CBState.halfOpen, 5, some 160, 2⟩
      = (⟨CBState.halfOpen, 5, some 160, 2⟩, Except.error
          (Exc.clientError "Circuit breaker half-open limit reached"))) ∧
    (∀ n : Nat, (runChecks ⟨5, 60, 2⟩ 100 n ⟨CBState.halfOpen, 5, some 160, 0⟩).2 ≤ 2 - 0) ∧
    (recordFailure ⟨5, 60, 2⟩ 100 ⟨CBState.halfOpen, 5, some 160, 0⟩
      = ⟨CBState.opened, 6, some 160, 0⟩) ∧
    (∀ body : String, fetchAttempt ⟨5, 60, 2⟩ 100 (GetOutcome.resp 200 body)
        ⟨CBState.halfOpen, 5, some 160, 0⟩
      = (CircuitBreaker.initial, Except.ok (200, body))) ∧
    (∀ s : CircuitBreaker, recordSuccess s = CircuitBreaker.initial) :=
  C1_circuit_breaker ⟨5, 60, 2⟩ 100 160 160 160
    ⟨CBState.closed, 0, none, 0⟩ ⟨CBState.closed, 4, none, 0⟩
    ⟨CBState.opened, 5, some 160, 0⟩ ⟨CBState.opened, 5, some 160, 0⟩
    ⟨CBState.halfOpen, 5, some 160, 0⟩ ⟨CBState.halfOpen, 5, some 160, 2⟩
    (by decide) rfl (by decide) rfl (by decide) rfl rfl (by decide)
    rfl rfl (by decide) (by decide) rfl (by decide) rfl (by decide)

/-- Claim C3 (code-bug evidence): the retry wrapper in isolation does
retry raw httpx transport errors up to the attempt budget (first
conjunct) and propagates non-transport exceptions after one attempt
(second conjunct); but the decorated `fetch` translates every transport
failure into `HTTPClientError` inside the wrapped body, which the
predicate does not retry — so a fetch whose GET hits a connection error
on every attempt makes exactly one attempt and raises immediately, even
with the default budget of 3 (third conjunct). -/
theorem C3_fetch_retry_mismatch :
    (retry_on_http_error 3 (fun _ =>
        (Except.error (Exc.httpxError TransportKind.connectError "boom")
          : Except Exc (Nat × String)))
      = (Except.error (Exc.httpxError TransportKind.connectError "boom"), 3)) ∧
    (retry_on_http_error 2 (fun _ =>
        (Except.error (Exc.otherError "not http error") : Except Exc (Nat × String)))
      = (Except.error (Exc.otherError "not http error"), 1)) ∧
    (fetchDecorated ⟨5, 60, 2⟩ 3 (fun _ => 0)
        (fun _ => GetOutcome.transport TransportKind.connectError "boom")
        CircuitBreaker.initial
      = (⟨CBState.closed, 1, none, 0⟩,
         Except.error (Exc.clientError "Request failed: boom"), 1)) := by
  refine ⟨rfl, rfl, rfl⟩

/-! ### Rate limiter lemmas -/

/-- Writing a key's list then reading it back. -/
theorem lookupTimes_setTimes_self (k : String) (ts : List Int) :
    ∀ table, lookupTimes (setTimes table k ts) k = ts := by
  intro table
  induction table with
  | nil => simp [setTimes, lookupTimes]
  | cons p rest ih =>
    by_cases h : p.1 = k
    · simp [setTimes, h, lookupTimes]
    · simp [setTimes, h, lookupTimes, ih]

/-- Writing one key leaves every other key's list unchanged. -/
theorem lookupTimes_setTimes_other (k' k : String) (ts : List Int) (hne : k' ≠ k) :
    ∀ table, lookupTimes (setTimes table k' ts) k = lookupTimes table k := by
  intro table
  induction table with
  | nil => simp [setTimes, lookupTimes, hne]
  | cons p rest ih =>
    by_cases h : p.1 = k'
    · simp [setTimes, h, lookupTimes, hne, ih]
    · simp [setTimes, h, lookupTimes, ih]

/-- Window membership distributes over append. -/
theorem windowTimes_append (T : Int) (a b : List Int) :
    windowTimes T (a ++ b) = windowTimes T a + windowTimes T b := by
  induction a with
  | nil => simp [windowTimes]
  | cons x rest ih =>
    simp only [List.cons_append, windowTimes, List.append_eq]
    rw [ih]
    omega

/-- No more window members than list elements. -/
theorem windowTimes_le_length (T : Int) : ∀ l : List Int, windowTimes T l ≤ l.length := by
  intro l
  induction l with
  | nil => simp [windowTimes]
  | cons x rest ih =>
    simp only [windowTimes, List.length_cons]
    split_ifs <;> omega

/-- Pruning at a request time `now ≤ T` removes no window member: every
pruned timestamp is at least an hour older than `now`, hence outside the
window ending at `T`. -/
theorem windowTimes_filter_window (T now : Int) (hle : now ≤ T) :
    ∀ l : List Int,
      windowTimes T (l.filter (fun t => now - 3600 < t)) = windowTimes T l := by
  intro l
  induction l with
  | nil => rfl
  | cons x rest ih =>
    by_cases hx : now - 3600 < x
    · simp [List.filter_cons, hx, windowTimes, ih]
    · have hxw : ¬ (T - 3600 < x ∧ x ≤ T) := by omega
      simp [List.filter_cons, hx, windowTimes, ih, hxw]

/-- The log produced by a run lists exactly the processed requests. -/
theorem rlRun_log_firsts (limit : Nat) :
    ∀ (reqs : List (Int × Option String)) (table : List (String × List Int)),
      (rlRun limit table reqs).2.map (fun e => e.1) = reqs := by
  intro reqs
  induction reqs with
  | nil => intro table; rfl
  | cons r rs ih =>
    intro table
    simp [rlRun, ih]

/-- A log whose entries all post-date `T` contributes nothing to the
window ending at `T`. -/
theorem windowCount_of_late (k : String) (T : Int) :
    ∀ log : List ((Int × Option String) × Bool),
      (∀ e ∈ log, T < e.1.1) → windowCount k T log = 0 := by
  intro log
  induction log with
  | nil => intro _; rfl
  | cons e rest ih =>
    intro h
    have he := h e (List.mem_cons_self e rest)
    have hcond : ¬ (e.1.2 = some k ∧ e.2 = true ∧ T - 3600 < e.1.1 ∧ e.1.1 ≤ T) := by
      rintro ⟨-, -, -, hlate⟩
      omega
    simp only [windowCount, hcond, if_false]
    simpa using ih (fun x hx => h x (List.mem_cons_of_mem e hx))

/-- The sliding-window bound: from any table, a time-ordered request
trace admits at most `limit` minus the window members already stored for
`k` further `k`-keyed requests inside the trailing window `(T-3600, T]`
(for non-empty keys — empty keys bypass the limiter). -/
theorem rlRun_window_bound (limit : Nat) (k : String) (hk : k ≠ "") (T : Int) :
    ∀ reqs : List (Int × Option String),
      List.Pairwise (fun a b : Int × Option String => a.1 ≤ b.1) reqs →
      ∀ table, windowCount k T (rlRun limit table reqs).2 ≤
        limit - windowTimes T (lookupTimes table k) := by
  intro reqs
  induction reqs with
  | nil =>
    intro _ table
    simp [rlRun, windowCount]
  | cons r rs ih =>
    intro hpw table
    have hhead := (List.pairwise_cons.mp hpw).1
    have htail := (List.pairwise_cons.mp hpw).2
    obtain ⟨t, key⟩ := r
    match key with
    | none =>
      have hdisp : rlDispatch limit table t none = (table, RLOutcome.passed) := rfl
      simp only [rlRun, hdisp, windowCount]
      have hcnd : ¬ ((none : Option String) = some k ∧
          RLOutcome.passed.isPassed = true ∧ T - 3600 < t ∧ t ≤ T) := by
        rintro ⟨h, -⟩
        exact Option.noConfusion h
      simp only [hcnd, if_false]
      simpa using ih htail table
    | some k' =>
      by_cases hke : k' = ""
      · subst hke
        have hdisp : rlDispatch limit table t (some "") = (table, RLOutcome.passed) := by
          simp [rlDispatch]
        simp only [rlRun, hdisp, windowCount]
        have hcnd : ¬ ((some "" : Option String) = some k ∧
            RLOutcome.passed.isPassed = true ∧ T - 3600 < t ∧ t ≤ T) := by
          rintro ⟨h, -⟩
          exact hk (by simpa using h.symm)
        simp only [hcnd, if_false]
        simpa using ih htail table
      · by_cases hkk : k' = k
        · subst hkk
          by_cases hT : T < t
          · -- the whole remaining trace post-dates the window
            have hlog : ∀ e ∈ (rlRun limit table ((t, some k') :: rs)).2, T < e.1.1 := by
              intro e he
              have hmem : e.1 ∈ (t, some k') :: rs := by
                have hfirsts := rlRun_log_firsts limit ((t, some k') :: rs) table
                rw [← hfirsts]
                exact List.mem_map_of_mem _ he
              rcases List.mem_cons.mp hmem with h | h
              · rw [h]; exact hT
              · exact lt_of_lt_of_le hT (hhead _ h)
            rw [windowCount_of_late k' T _ hlog]
            exact Nat.zero_le _
          · push_neg at hT
            by_cases hfull :
                limit ≤ ((lookupTimes table k').filter (fun x => t - 3600 < x)).length
            · -- rejected: nothing stored beyond the prune, handler skipped
              have hdisp : rlDispatch limit table t (some k')
                  = (setTimes table k'
                      ((lookupTimes table k').filter (fun x => t - 3600 < x)),
                     RLOutcome.rejected 429 "3600") := by
                simp [rlDispatch, hke, check_rate_limit, hfull]
              have hb := ih htail
                (setTimes table k' ((lookupTimes table k').filter (fun x => t - 3600 < x)))
              rw [lookupTimes_setTimes_self,
                windowTimes_filter_window T t hT] at hb
              simp only [rlRun, hdisp, windowCount]
              simpa [RLOutcome.isPassed] using hb
            · -- admitted: the current timestamp is appended
              push_neg at hfull
              have hdisp : rlDispatch limit table t (some k')
                  = (setTimes table k'
                      (((lookupTimes table k').filter (fun x => t - 3600 < x)) ++ [t]),
                     RLOutcome.passed) := by
                simp [rlDispatch, hke, check_rate_limit, Nat.not_le.mpr hfull]
              have hb := ih htail
                (setTimes table k'
                  (((lookupTimes table k').filter (fun x => t - 3600 < x)) ++ [t]))
              rw [lookupTimes_setTimes_self, windowTimes_append,
                windowTimes_filter_window T t hT] at hb
              have hwle : windowTimes T (lookupTimes table k')
                  ≤ ((lookupTimes table k').filter (fun x => t - 3600 < x)).length := by
                calc windowTimes T (lookupTimes table k')
                    = windowTimes T
                        ((lookupTimes table k').filter (fun x => t - 3600 < x)) :=
                      (windowTimes_filter_window T t hT _).symm
                  _ ≤ _ := windowTimes_le_length T _
              simp only [rlRun, hdisp, windowCount]
              simp only [windowTimes] at hb
              by_cases hw : T - 3600 < t
              · simp [RLOutcome.isPassed, hw, hT] at hb ⊢
                omega
              · simp [RLOutcome.isPassed, hw, hT] at hb ⊢
                omega
        · -- a different key's request leaves k's stored list untouched
          have hdisp1 : (rlDispatch limit table t (some k')).1
              = setTimes table k'
                  (check_rate_limit limit t (lookupTimes table k')).1 := by
            simp only [rlDispatch, if_neg hke]
            split_ifs <;> rfl
          have hcnd : ¬ ((some k' : Option String) = some k ∧
              ((rlDispatch limit table t (some k')).2).isPassed = true ∧
              T - 3600 < t ∧ t ≤ T) := by
            rintro ⟨h, -⟩
            exact hkk (by simpa using h)
          simp only [rlRun, windowCount, hcnd, if_false]
          have hb := ih htail ((rlDispatch limit table t (some k')).1)
          rw [hdisp1, lookupTimes_setTimes_other k' k _ hkk] at hb
          simpa [hdisp1] using hb

/-- Claim C6 counterexample: with an hourly limit of 1, two requests
carrying the configured API-key header with an empty value are both
admitted inside one window and nothing is recorded for them — the
truthiness test `if api_key:` bypasses the limiter — whereas the claim
predicts the second such header-carrying request is rejected with 429. -/
theorem C6_rate_limit_counterexample :
    rlRun 1 [] [(1000, some ""), (1001, some "")]
      = ([], [((1000, some ""), true), ((1001, some ""), true)]) ∧
    windowCount "" 1001 (rlRun 1 [] [(1000, some ""), (1001, some "")]).2 = 2 := by
  exact ⟨by decide, by decide⟩

/-- Claim C6 (amended): for every request carrying a NON-EMPTY value in
the configured API-key header, timestamps at least an hour old are
pruned; the request is rejected with 429 and `Retry-After: 3600` without
invoking the downstream handler whenever the pruned count is at or above
the hourly limit; otherwise the current timestamp is appended and the
request proceeds — hence over any time-ordered trace from a fresh
middleware at most `limit` requests per non-empty key are admitted in any
trailing 3600-second window.  Requests without the header, or with an
empty header value, bypass rate limiting entirely. -/
theorem C6_rate_limit_amended (limit : Nat) (now T : Int) (k : String)
    (tableU tableO : List (String × List Int))
    (reqs : List (Int × Option String))
    (hk : k ≠ "")
    (hU : ((lookupTimes tableU k).filter (fun x => now - 3600 < x)).length < limit)
    (hO : limit ≤ ((lookupTimes tableO k).filter (fun x => now - 3600 < x)).length)
    (hmono : List.Pairwise (fun a b : Int × Option String => a.1 ≤ b.1) reqs) :
    (∀ table : List (String × List Int),
      rlDispatch limit table now none = (table, RLOutcome.passed)) ∧
    (∀ table : List (String × List Int),
      rlDispatch limit table now (some "") = (table, RLOutcome.passed)) ∧
    (rlDispatch limit tableU now (some k)
      = (setTimes tableU k
          (((lookupTimes tableU k).filter (fun x => now - 3600 < x)) ++ [now]),
         RLOutcome.passed)) ∧
    (rlDispatch limit tableO now (some k)
      = (setTimes tableO k
          ((lookupTimes tableO k).filter (fun x => now - 3600 < x)),
         RLOutcome.rejected 429 "3600")) ∧
    (windowCount k T (rlRun limit [] reqs).2 ≤ limit) := by
  refine ⟨fun table => rfl, fun table => by simp [rlDispatch], ?_, ?_, ?_⟩
  · simp [rlDispatch, hk, check_rate_limit, Nat.not_le.mpr hU]
  · simp [rlDispatch, hk, check_rate_limit, hO]
  · have hb := rlRun_window_bound limit k hk T reqs hmono []
    simpa [lookupTimes, windowTimes] using hb

/-- Witness for the amended C6: limit 1, a fresh table for admission, a
window-filled table for rejection, and a three-request trace in which the
second same-key request is throttled. -/
theorem C6_rate_limit_amended_witness :
    (∀ table : List (String × List Int),
      rlDispatch 1 table 5000 none = (table, RLOutcome.passed)) ∧
    (∀ table : List (String × List Int),
      rlDispatch 1 table 5000 (some "") = (table, RLOutcome.passed)) ∧
    (rlDispatch 1 [] 5000 (some "key1")
      = (setTimes [] "key1"
          (((lookupTimes [] "key1").filter (fun x => (5000 : Int) - 3600 < x)) ++ [5000]),
         RLOutcome.passed)) ∧
    (rlDispatch 1 [("key1", [4000])] 5000 (some "key1")
      = (setTimes [("key1", [4000])] "key1"
          ((lookupTimes [("key1", [4000])] "key1").filter
            (fun x => (5000 : Int) - 3600 < x)),
         RLOutcome.rejected 429 "3600")) ∧
    (windowCount "key1" 5000
      (rlRun 1 [] [(4000, some "key1"), (4500, some "key1"), (5000, none)]).2 ≤ 1) :=
  C6_rate_limit_amended 1 5000 5000 "key1" [] [("key1", [4000])]
    [(4000, some "key1"), (4500, some "key1"), (5000, none)]
    (by decide) (by decide) (by decide) (by decide)

/-- A stored book used by the C2 scenarios. -/
def c2Book : Book :=
  { name := "Sharp Objects", description := none, category := "Mystery",
    price_excl_tax := 47, price_incl_tax := 47, availability := "In stock",
    num_reviews := 0, image_url := "https://example.com/i.jpg",
    rating := Rating.FOUR, source_url := "https://example.com/catalogue/book1.html",
    crawl_timestamp := 5, status := "active", content_hash := "abc",
    raw_html := some "<html>x</html>" }

/-- A books collection holding `c2Book` under a canonical ObjectId. -/
def c2docs : List (String × Book) :=
  [("0123456789abcdef01234567", c2Book)]

/-- Claim C2 counterexample: requesting the stored book by its exact
`source_url` does not fall back to the URL lookup — the malformed
ObjectId raises inside `get_book_by_id` and the route propagates the
error (a 500), instead of returning the 200 response the claim
predicts. -/
theorem C2_get_book_counterexample :
    get_book_route c2docs "https://example.com/catalogue/book1.html"
      = RouteResult.serverError "InvalidId" ∧
    get_book_route c2docs "https://example.com/catalogue/book1.html"
      ≠ RouteResult.ok (toDetailResponse "0123456789abcdef01234567" c2Book) := by
  exact ⟨rfl, by decide⟩

/-- Claim C2 (amended): the id is resolved first as a store identifier
only when it is a well-formed ObjectId — a malformed id propagates the
lookup error (500) with no fallback; the `source_url` fallback applies
only when the id lookup succeeds finding nothing; 404 "Book not found:
{id}" when neither resolves; a found book is returned with the raw HTML
and with the caller-supplied path value as the response id (which equals
the canonical identifier exactly on the store-identifier path). -/
theorem C2_get_book_amended (docs1 docs2 docs3 docs4 : List (String × Book))
    (id1 id2 id3 id4 : String) (b2 b3 : Book)
    (h1 : isValidObjectId id1 = false)
    (h2 : get_book_by_id docs2 id2 = Except.ok (some b2))
    (h3a : get_book_by_id docs3 id3 = Except.ok none)
    (h3b : get_book_by_url docs3 id3 = some b3)
    (h4a : get_book_by_id docs4 id4 = Except.ok none)
    (h4b : get_book_by_url docs4 id4 = none) :
    get_book_route docs1 id1 = RouteResult.serverError "InvalidId" ∧
    get_book_route docs2 id2 = RouteResult.ok (toDetailResponse id2 b2) ∧
    get_book_route docs3 id3 = RouteResult.ok (toDetailResponse id3 b3) ∧
    get_book_route docs4 id4 = RouteResult.notFound ("Book not found: " ++ id4) := by
  refine ⟨?_, ?_, ?_, ?_⟩
  · simp [get_book_route, get_book_by_id, h1]
  · simp [get_book_route, h2]
  · simp [get_book_route, h3a, h3b]
  · simp [get_book_route, h4a, h4b]

/-- The C2 scenario where a valid ObjectId string happens to equal a
stored `source_url` (exercising the fallback path). -/
def c2BookUrlAsId : Book :=
  { c2Book with source_url := "0123456789abcdef01234567" }

/-- Witness for the amended C2 across the four resolution scenarios. -/
theorem C2_get_book_amended_witness :
    get_book_route c2docs "https://example.com/catalogue/book1.html"
      = RouteResult.serverError "InvalidId" ∧
    get_book_route c2docs "0123456789abcdef01234567"
      = RouteResult.ok (toDetailResponse "0123456789abcdef01234567" c2Book) ∧
    get_book_route [("aaaaaaaaaaaaaaaaaaaaaaaa", c2BookUrlAsId)] "0123456789abcdef01234567"
      = RouteResult.ok (toDetailResponse "0123456789abcdef01234567" c2BookUrlAsId) ∧
    get_book_route ([] : List (String × Book)) "0123456789abcdef01234567"
      = RouteResult.notFound ("Book not found: " ++ "0123456789abcdef01234567") :=
  C2_get_book_amended c2docs c2docs
    [("aaaaaaaaaaaaaaaaaaaaaaaa", c2BookUrlAsId)] [] _ _ _ _ c2Book c2BookUrlAsId
    (by decide) rfl rfl rfl rfl rfl

/-- Claim C10: `_process_single_book` writes to the books collection only
for a new book or when the stored hash differs and the field comparison
emits at least one change; a matching hash, or a differing hash with an
empty comparison, leaves the stored document (hash and crawl timestamp
included) completely unmodified; fetch/parse failures touch only the
failed-crawls collection. -/
theorem C10_change_detector_frame
    (dbA dbB dbC dbD dbE : BooksDB) (bA bB bC bD : Book)
    (iB iC iD : String) (oldB oldC oldD : Book)
    (hA : findDoc dbA.docs bA.source_url = none)
    (hB : findDoc dbB.docs bB.source_url = some (iB, oldB))
    (hBh : oldB.content_hash = bB.content_hash)
    (hC : findDoc dbC.docs bC.source_url = some (iC, oldC))
    (hCh : oldC.content_hash ≠ bC.content_hash)
    (hCc : compareChanges oldC bC = [])
    (hD : findDoc dbD.docs bD.source_url = some (iD, oldD))
    (hDh : oldD.content_hash ≠ bD.content_hash)
    (hDc : compareChanges oldD bD ≠ []) :
    (∀ url msg,
      (process_single_book dbE url (CrawlOutcome.crawlError msg)).1.docs = dbE.docs) ∧
    (∀ url msg,
      (process_single_book dbE url (CrawlOutcome.unexpectedError msg)).1.docs = dbE.docs) ∧
    (∀ url, process_single_book dbA url (CrawlOutcome.ok bA)
      = ((upsert_book dbA bA).1,
         { new_books := 1, changed_books := 0, unchanged_books := 0, errors := 0 })) ∧
    (∀ url, process_single_book dbB url (CrawlOutcome.ok bB)
      = (dbB, { new_books := 0, changed_books := 0, unchanged_books := 1, errors := 0 })) ∧
    (∀ url, process_single_book dbC url (CrawlOutcome.ok bC)
      = (dbC, { new_books := 0, changed_books := 0, unchanged_books := 1, errors := 0 })) ∧
    (∀ url, process_single_book dbD url (CrawlOutcome.ok bD)
      = ((upsert_book dbD bD).1,
         { new_books := 0, changed_books := 1, unchanged_books := 0, errors := 0 })) := by
  refine ⟨?_, ?_, ?_, ?_, ?_, ?_⟩
  · intro url msg
    simp only [process_single_book, recordFailedCrawl]
    split_ifs <;> rfl
  · intro url msg
    simp only [process_single_book, recordFailedCrawl]
    split_ifs <;> rfl
  · intro url
    simp [process_single_book, hA]
  · intro url
    simp [process_single_book, hB, hBh]
  · intro url
    simp [process_single_book, hC, hCh, hCc]
  · intro url
    simp [process_single_book, hD, hDh, hDc]

/-- Base stored book for the C10 witness scenarios. -/
def w10Book : Book :=
  { name := "Soumission", description := some "novel", category := "Fiction",
    price_excl_tax := 50, price_incl_tax := 50, availability := "In stock",
    num_reviews := 3, image_url := "https://example.com/s.jpg",
    rating := Rating.ONE, source_url := "https://example.com/catalogue/s.html",
    crawl_timestamp := 7, status := "active", content_hash := "h-old",
    raw_html := none }

/-- Witness for C10: a fetch failure, a brand-new book, a matching hash,
a differing hash with no emitted change (only the un-compared `name`
field differs), and a differing hash with a price change. -/
theorem C10_change_detector_frame_witness :
    (∀ url msg,
      (process_single_book ⟨[("i0", w10Book)], [], 4⟩ url
        (CrawlOutcome.crawlError msg)).1.docs = [("i0", w10Book)]) ∧
    (∀ url msg,
      (process_single_book ⟨[("i0", w10Book)], [], 4⟩ url
        (CrawlOutcome.unexpectedError msg)).1.docs = [("i0", w10Book)]) ∧
    (∀ url, process_single_book ⟨[], [], 0⟩ url (CrawlOutcome.ok w10Book)
      = ((upsert_book ⟨[], [], 0⟩ w10Book).1,
         { new_books := 1, changed_books := 0, unchanged_books := 0, errors := 0 })) ∧
    (∀ url, process_single_book ⟨[("i1", w10Book)], [], 4⟩ url
        (CrawlOutcome.ok { w10Book with num_reviews := 9, content_hash := "h-old" })
      = (⟨[("i1", w10Book)], [], 4⟩,
         { new_books := 0, changed_books := 0, unchanged_books := 1, errors := 0 })) ∧
    (∀ url, process_single_book ⟨[("i1", w10Book)], [], 4⟩ url
        (CrawlOutcome.ok { w10Book with name := "Renamed", content_hash := "h-new" })
      = (⟨[("i1", w10Book)], [], 4⟩,
         { new_books := 0, changed_books := 0, unchanged_books := 1, errors := 0 })) ∧
    (∀ url, process_single_book ⟨[("i1", w10Book)], [], 4⟩ url
        (CrawlOutcome.ok { w10Book with price_incl_tax := 60, content_hash := "h-new" })
      = ((upsert_book ⟨[("i1", w10Book)], [], 4⟩
            { w10Book with price_incl_tax := 60, content_hash := "h-new" }).1,
         { new_books := 0, changed_books := 1, unchanged_books := 0, errors := 0 })) :=
  C10_change_detector_frame
    ⟨[], [], 0⟩ ⟨[("i1", w10Book)], [], 4⟩ ⟨[("i1", w10Book)], [], 4⟩
    ⟨[("i1", w10Book)], [], 4⟩ ⟨[("i0", w10Book)], [], 4⟩
    w10Book { w10Book with num_reviews := 9, content_hash := "h-old" }
    { w10Book with name := "Renamed", content_hash := "h-new" }
    { w10Book with price_incl_tax := 60, content_hash := "h-new" }
    "i1" "i1" "i1" w10Book w10Book w10Book
    (by decide) (by decide) (by decide) (by decide) (by decide) (by decide)
    (by decide) (by decide) (by decide)

/-- A persisted crawler state recording page 7 with status "running". -/
def witnessState : CrawlerState :=
  { last_page := 7, last_run := 3, status := "running",
    total_books_crawled := 120, error_message := none }

/-- Witness for C4 at a persisted state recording page 7, status
"running". -/
theorem C4_resume_logic_witness :
    crawlStartPage true (some witnessState) = (max 1 7, some witnessState) ∧
    crawlStartPage false (some witnessState) = (1, none) :=
  C4_resume_logic witnessState rfl (by decide)

end Crawler
